import Mathlib

/-!
# Meeting-room reservation services: conflict checking and RBAC

A shallow embedding of the Bookings and Reviews services of the
meeting-room reservation application (`bookings_service/app.py`,
`reviews_service/app.py`).

Modelling conventions:
* time instants (`start_time`, `end_time`, `created_at`) are integers;
  the Python code compares parsed `datetime` values with `<`, `>`, `<=`,
  which is a total order, so any linearly ordered carrier is faithful;
* the per-request identity accessors (`request.headers.get(...)`) become
  explicit `Option` parameters (`currentUserId`, the `X-MFA-Code` header,
  the `X-Role` header);
* the database session becomes an explicit `List` of rows passed to and
  returned from each handler; a handler that returns an error before
  committing returns the list unchanged;
* JSON parsing, datetime parsing and HTTP wiring are out of scope: handler
  inputs are already-parsed records, handler outputs are small outcome
  types mirroring the handler's distinct `return` statements.
-/

/-- Row of the `bookings` table (`bookings_service/models.py`). -/
structure Booking where
  id : Int
  user_id : Int
  room_id : Int
  start_time : Int
  end_time : Int
  status : String
  deriving Repr, DecidableEq

/-- Row of the `reviews` table (`reviews_service/models.py`). -/
structure Review where
  id : Int
  user_id : Int
  room_id : Int
  rating : Int
  comment : Option String
  status : String
  is_flagged : Bool
  created_at : Int
  deriving Repr, DecidableEq

namespace Bookings

/-- `bookings_service.app.get_current_role`:
`request.headers.get("X-Role", "regular_user")`. -/
def get_current_role (xRole : Option String) : String :=
  xRole.getD "regular_user"

/-- `bookings_service.app.verify_mfa_for_delete`:
`provided is not None and provided == MFA_DELETE_BOOKING_CODE`.
The configured code (environment variable `MFA_DELETE_BOOKING_CODE`,
default `"123456"`) is passed as `code`. -/
def verify_mfa_for_delete (provided : Option String) (code : String) : Bool :=
  match provided with
  | none => false
  | some p => p == code

/-- `bookings_service.app.can_do_booking_action`.  The Python function reads
`get_current_user_id()` lazily inside the ownership branches; here that
request-scoped value is the explicit parameter `currentUserId`. -/
def can_do_booking_action (role action : String)
    (booking_owner_id target_user_id currentUserId : Option Int) : Bool :=
  -- Admin can do everything on bookings
  if role == "admin" then true
  else if action == "get_all" then
    role == "facility_manager" || role == "auditor" || role == "service_account"
  else if action == "create" then
    role == "regular_user" || role == "facility_manager" || role == "moderator"
  else if action == "update" || action == "cancel" then
    match booking_owner_id with
    | none => false
    | some owner =>
      if role == "regular_user" || role == "facility_manager" || role == "moderator" then
        match currentUserId with
        | none => false
        | some u => u == owner
      else false
  else if action == "user_history" then
    if role == "facility_manager" || role == "auditor" || role == "service_account" then
      true
    else if role == "regular_user" || role == "moderator" then
      -- current_user_id is not None and target_user_id is not None
      -- and current_user_id == target_user_id
      match currentUserId with
      | none => false
      | some u =>
        match target_user_id with
        | none => false
        | some t => u == t
    else false
  else if action == "check_availability" then true
  else false

/-- The conflict filter shared by `create_booking` (lines 301-310) and
`check_availability` (lines 538-547):
`Booking.room_id == room_id, Booking.status == "CONFIRMED",
Booking.start_time < end, Booking.end_time > start`. -/
def conflicts_with (b : Booking) (roomId start_t end_t : Int) : Bool :=
  b.room_id == roomId && b.status == "CONFIRMED" &&
    decide (b.start_time < end_t) && decide (b.end_time > start_t)

/-- Parsed JSON body of `POST /bookings`. -/
structure BookingCreateRequest where
  user_id : Int
  room_id : Int
  start_time : Int
  end_time : Int
  deriving Repr, DecidableEq

/-- The distinct outcomes of `create_booking`, one per `return` site. -/
inductive CreateOutcome where
  /-- 403 `"Forbidden"` (role-level RBAC rejection). -/
  | forbidden
  /-- 403 `"Users can only create bookings for themselves"`. -/
  | selfForbidden
  /-- 400 `"end_time must be after start_time"`. -/
  | badInterval
  /-- 409 `"Room is not available in this time slot"`. -/
  | conflict
  /-- 201 with the created booking. -/
  | created (b : Booking)
  deriving Repr, DecidableEq

/-- `bookings_service.app.create_booking`, after JSON/datetime parsing.
`newId` is the primary key the persistence layer assigns to the inserted
row.  Returns the outcome and the resulting table. -/
def create_booking (role : String) (currentUserId : Option Int)
    (req : BookingCreateRequest) (newId : Int) (db : List Booking) :
    CreateOutcome × List Booking :=
  if !(can_do_booking_action role "create" none none currentUserId) then
    (.forbidden, db)
  else if (role == "regular_user" || role == "moderator") &&
      (match currentUserId with
       | none => true
       | some u => decide (u ≠ req.user_id)) then
    (.selfForbidden, db)
  else if req.end_time ≤ req.start_time then
    (.badInterval, db)
  else if (db.find? fun b =>
      conflicts_with b req.room_id req.start_time req.end_time).isSome then
    (.conflict, db)
  else
    let b : Booking :=
      { id := newId, user_id := req.user_id, room_id := req.room_id,
        start_time := req.start_time, end_time := req.end_time,
        status := "CONFIRMED" }
    (.created b, db ++ [b])

/-- Parsed JSON body of `PUT /bookings/<id>`: all fields optional. -/
structure BookingUpdateRequest where
  room_id : Option Int
  start_time : Option Int
  end_time : Option Int
  deriving Repr, DecidableEq

/-- The distinct outcomes of `update_booking`. -/
inductive UpdateOutcome where
  /-- 404 `"Booking not found"`. -/
  | notFound
  /-- 403 `"Forbidden"`. -/
  | forbidden
  /-- 400 `"end_time must be after start_time"`. -/
  | badInterval
  /-- 200 with the updated booking. -/
  | updated (b : Booking)
  deriving Repr, DecidableEq

/-- `bookings_service.app.update_booking`.  Note: the handler applies the
requested field changes and re-validates the interval, but it performs no
availability/conflict query before committing. -/
def update_booking (role : String) (currentUserId : Option Int)
    (bookingId : Int) (req : BookingUpdateRequest) (db : List Booking) :
    UpdateOutcome × List Booking :=
  match db.find? (fun b => b.id == bookingId) with
  | none => (.notFound, db)
  | some booking =>
    if !(can_do_booking_action role "update" (some booking.user_id) none
        currentUserId) then
      (.forbidden, db)
    else
      let b' : Booking :=
        { booking with
          room_id := req.room_id.getD booking.room_id,
          start_time := req.start_time.getD booking.start_time,
          end_time := req.end_time.getD booking.end_time }
      if b'.end_time ≤ b'.start_time then
        (.badInterval, db)
      else
        (.updated b', db.map fun x => if x.id == bookingId then b' else x)

/-- The distinct outcomes of `cancel_booking`. -/
inductive CancelOutcome where
  /-- 404 `"Booking not found"`. -/
  | notFound
  /-- 403 `"Forbidden"` (RBAC). -/
  | forbidden
  /-- 403 `"MFA required or invalid code"`. -/
  | mfaForbidden
  /-- 200 `"Booking cancelled"`. -/
  | cancelled
  deriving Repr, DecidableEq

/-- `bookings_service.app.cancel_booking`: RBAC check on the booking's
owner, then the MFA gate, then the status transition to `"CANCELLED"`. -/
def cancel_booking (role : String) (currentUserId : Option Int)
    (mfaHeader : Option String) (mfaCode : String)
    (bookingId : Int) (db : List Booking) :
    CancelOutcome × List Booking :=
  match db.find? (fun b => b.id == bookingId) with
  | none => (.notFound, db)
  | some booking =>
    if !(can_do_booking_action role "cancel" (some booking.user_id) none
        currentUserId) then
      (.forbidden, db)
    else if !(verify_mfa_for_delete mfaHeader mfaCode) then
      (.mfaForbidden, db)
    else
      (.cancelled,
        db.map fun x =>
          if x.id == bookingId then { x with status := "CANCELLED" } else x)

/-- The availability query of `GET /availability`: available iff the
conflict query returns no row (`available = conflict is None`). -/
def check_availability (roomId start_t end_t : Int) (db : List Booking) : Bool :=
  (db.find? fun b => conflicts_with b roomId start_t end_t).isNone

end Bookings

namespace Reviews

/-- `reviews_service.app.get_current_role`:
`request.headers.get("X-Role", "regular_user")`. -/
def get_current_role (xRole : Option String) : String :=
  xRole.getD "regular_user"

/-- `reviews_service.app.can_do_review_action`, with the request-scoped
`get_current_user_id()` value as the explicit parameter `currentUserId`. -/
def can_do_review_action (role action : String)
    (review_owner_id currentUserId : Option Int) : Bool :=
  -- Admin can do everything on reviews
  if role == "admin" then true
  else if action == "create" then
    role == "regular_user" || role == "facility_manager"
  else if action == "update" || action == "delete" then
    match review_owner_id with
    | none => false
    | some owner =>
      -- Moderators have global moderation rights on reviews
      if role == "moderator" then true
      else if role == "regular_user" || role == "facility_manager" then
        match currentUserId with
        | none => false
        | some u => u == owner
      else false
  else if action == "list_room_reviews" then
    role == "admin" || role == "regular_user" || role == "facility_manager" ||
      role == "moderator" || role == "auditor" || role == "service_account"
  else if action == "flag" then
    role == "admin" || role == "moderator"
  else false

/-- Parsed JSON body of `POST /reviews` (ids and rating already through
`int(...)`; `comment` optional, `none` when absent or JSON null). -/
structure ReviewCreateRequest where
  user_id : Int
  room_id : Int
  rating : Int
  comment : Option String
  deriving Repr, DecidableEq

/-- The distinct outcomes of `create_review`. -/
inductive ReviewCreateOutcome where
  /-- 403 `"Forbidden"` (role-level RBAC rejection). -/
  | forbidden
  /-- 403 `"Users can only create reviews for themselves"`. -/
  | selfForbidden
  /-- 400 `"rating must be between 1 and 5"`. -/
  | badRating
  /-- 400 `"comment is too long (max 500 characters)"`. -/
  | commentTooLong
  /-- 201 with the created review. -/
  | created (r : Review)
  deriving Repr, DecidableEq

/-- `reviews_service.app.create_review`, after JSON parsing.  `newId` and
`now` are the primary key and `created_at` timestamp the persistence layer
assigns.  The stored row keeps `data.get("comment")` verbatim, exactly as
the Python handler does. -/
def create_review (role : String) (currentUserId : Option Int)
    (req : ReviewCreateRequest) (newId : Int) (now : Int)
    (db : List Review) : ReviewCreateOutcome × List Review :=
  if !(can_do_review_action role "create" none currentUserId) then
    (.forbidden, db)
  else if (role == "regular_user" || role == "facility_manager") &&
      (match currentUserId with
       | none => true
       | some u => decide (u ≠ req.user_id)) then
    (.selfForbidden, db)
  else if req.rating < 1 || req.rating > 5 then
    (.badRating, db)
  else if ((req.comment.getD "").trim.length > 500) then
    (.commentTooLong, db)
  else
    let r : Review :=
      { id := newId, user_id := req.user_id, room_id := req.room_id,
        rating := req.rating, comment := req.comment,
        status := "ACTIVE", is_flagged := false, created_at := now }
    (.created r, db ++ [r])

/-- The row filter of `GET /reviews/room/<room_id>`:
`Review.room_id == room_id, Review.status == "ACTIVE"`.  The handler
additionally orders by `created_at` descending; the ordering is not
modelled, the claims about the listing concern membership only. -/
def get_reviews_for_room (roomId : Int) (db : List Review) : List Review :=
  db.filter fun r => r.room_id == roomId && r.status == "ACTIVE"

end Reviews

/-- The spec's overlap rule, stated in the spec's own words: two half-open
intervals `[s1,e1)` and `[s2,e2)` overlap iff `s1 < e2 AND s2 < e1`.
Kept separate from `Bookings.conflicts_with` (which is translated from the
SQLAlchemy filter) so the two can be compared. -/
def overlapsSpec (s1 e1 s2 e2 : Int) : Bool :=
  decide (s1 < e2) && decide (s2 < e1)

/-- The no-double-booking invariant: no two distinct rows of the bookings
table, for the same room and both `CONFIRMED`, have overlapping half-open
intervals. -/
def noOverlap (db : List Booking) : Bool :=
  db.all fun b1 => db.all fun b2 =>
    !(decide (b1.id ≠ b2.id) && b1.room_id == b2.room_id &&
      b1.status == "CONFIRMED" && b2.status == "CONFIRMED" &&
      decide (b1.start_time < b2.end_time) && decide (b2.start_time < b1.end_time))

/-- `noOverlap db = true` says exactly that every pair of distinct,
same-room, `CONFIRMED` rows has non-overlapping half-open intervals. -/
theorem noOverlap_iff (db : List Booking) :
    noOverlap db = true ↔
      ∀ b1 ∈ db, ∀ b2 ∈ db, b1.id ≠ b2.id → b1.room_id = b2.room_id →
        b1.status = "CONFIRMED" → b2.status = "CONFIRMED" →
        ¬(b1.start_time < b2.end_time ∧ b2.start_time < b1.end_time) := by
  unfold noOverlap
  simp only [List.all_eq_true]
  constructor
  · rintro h b1 h1 b2 h2 hid hroom hs1 hs2 ⟨hl1, hl2⟩
    have hb := h b1 h1 b2 h2
    simp [hid, hroom, hs1, hs2, hl1, hl2] at hb
  · intro h b1 h1 b2 h2
    by_cases hid : b1.id = b2.id
    · simp [hid]
    · by_cases hroom : b1.room_id = b2.room_id
      · by_cases hs1 : b1.status = "CONFIRMED"
        · by_cases hs2 : b2.status = "CONFIRMED"
          · have hpair := h b1 h1 b2 h2 hid hroom hs1 hs2
            by_cases hl1 : b1.start_time < b2.end_time
            · have hl2 : ¬ b2.start_time < b1.end_time :=
                fun hl2 => hpair ⟨hl1, hl2⟩
              simp [hl1, hl2]
            · simp [hl1]
          · simp [hs2]
        · simp [hs1]
      · simp [hroom]

/-- C6: in both domains the RBAC decision function returns `true` whenever
the role is `admin`, for every action string (recognized or not) and every
ownership context; the admin test is the first, unconditional branch. -/
theorem admin_is_universal_override (action : String)
    (ownerId targetId uid : Option Int) :
    Bookings.can_do_booking_action "admin" action ownerId targetId uid = true ∧
    Reviews.can_do_review_action "admin" action ownerId uid = true := by
  constructor <;>
    simp [Bookings.can_do_booking_action, Reviews.can_do_review_action]

/-- C5: in the reviews domain a `moderator` may `update` and `delete` any
review regardless of ownership (global moderation override), while in the
bookings domain a `moderator` whose id differs from the booking owner's is
denied `update` and `cancel`. -/
theorem moderator_override_is_reviews_only (ownerId : Int) (uid : Option Int) :
    Reviews.can_do_review_action "moderator" "update" (some ownerId) uid = true ∧
    Reviews.can_do_review_action "moderator" "delete" (some ownerId) uid = true ∧
    Bookings.can_do_booking_action "moderator" "update" (some 20) none (some 10) = false ∧
    Bookings.can_do_booking_action "moderator" "cancel" (some 20) none (some 10) = false := by
  refine ⟨?_, ?_, by decide, by decide⟩ <;>
    simp [Reviews.can_do_review_action]

/-- C2: for every role string outside the closed role set and every action
string outside both closed action sets, the two RBAC decision functions
return `false` for every ownership context.  Totality and freedom from
side effects hold by construction: both are plain functions on strings and
options. -/
theorem unknown_role_and_action_default_deny (role action : String)
    (ownerId targetId uid : Option Int)
    (hrole : role ∉ ["admin", "regular_user", "facility_manager",
      "moderator", "auditor", "service_account"])
    (hbact : action ∉ ["get_all", "create", "update", "cancel",
      "user_history", "check_availability"])
    (hract : action ∉ ["create", "update", "delete", "list_room_reviews", "flag"]) :
    Bookings.can_do_booking_action role action ownerId targetId uid = false ∧
    Reviews.can_do_review_action role action ownerId uid = false := by
  simp only [List.mem_cons, List.not_mem_nil, or_false, not_or] at hrole hbact hract
  obtain ⟨hr1, hr2, hr3, hr4, hr5, hr6⟩ := hrole
  obtain ⟨hb1, hb2, hb3, hb4, hb5, hb6⟩ := hbact
  obtain ⟨hv1, hv2, hv3, hv4, hv5⟩ := hract
  constructor
  · simp [Bookings.can_do_booking_action, hr1, hr2, hr3, hr4, hr5, hr6,
      hb1, hb2, hb3, hb4, hb5, hb6]
  · simp [Reviews.can_do_review_action, hr1, hr2, hr3, hr4, hr5, hr6,
      hv1, hv2, hv3, hv4, hv5]

/-- Witness for C2 at a concrete unrecognized role and action. -/
theorem unknown_role_and_action_default_deny_witness :
    Bookings.can_do_booking_action "intruder" "frobnicate" none none none = false ∧
    Reviews.can_do_review_action "intruder" "frobnicate" none none = false :=
  unknown_role_and_action_default_deny "intruder" "frobnicate" none none none
    (by decide) (by decide) (by decide)

/-- C8: the `user_history` decision table of the bookings service: `admin`
always allowed; `facility_manager`, `auditor`, `service_account` allowed
for any target; `regular_user` and `moderator` allowed exactly when the
authenticated caller id is present and equals the target user id; any
other role denied. -/
theorem user_history_policy (role : String) (ownerId targetId uid : Option Int) :
    (Bookings.can_do_booking_action "admin" "user_history" ownerId targetId uid
      = true) ∧
    (role = "facility_manager" ∨ role = "auditor" ∨ role = "service_account" →
      Bookings.can_do_booking_action role "user_history" ownerId targetId uid
        = true) ∧
    ((role = "regular_user" ∨ role = "moderator") →
      (Bookings.can_do_booking_action role "user_history" ownerId targetId uid
          = true ↔ ∃ u, uid = some u ∧ targetId = some u)) ∧
    (role ∉ ["admin", "regular_user", "facility_manager", "moderator",
      "auditor", "service_account"] →
      Bookings.can_do_booking_action role "user_history" ownerId targetId uid
        = false) := by
  refine ⟨by simp [Bookings.can_do_booking_action], ?_, ?_, ?_⟩
  · rintro (rfl | rfl | rfl) <;> simp [Bookings.can_do_booking_action]
  · rintro (rfl | rfl) <;>
      cases uid <;> cases targetId <;>
        simp [Bookings.can_do_booking_action] <;> omega
  · intro hrole
    simp only [List.mem_cons, List.not_mem_nil, or_false, not_or] at hrole
    obtain ⟨hr1, hr2, hr3, hr4, hr5, hr6⟩ := hrole
    simp [Bookings.can_do_booking_action, hr1, hr2, hr3, hr4, hr5, hr6]

/-- Witness for C8: a `moderator` asking for their own history. -/
theorem user_history_policy_witness :
    Bookings.can_do_booking_action "moderator" "user_history" none (some 7) (some 7)
      = true :=
  ((user_history_policy "moderator" none (some 7) (some 7)).2.2.1
    (Or.inr rfl)).mpr ⟨7, rfl, rfl⟩

/-- C10: with no `X-Role` header both services resolve the caller's role to
`"regular_user"`, and such a caller receives the regular-user permissions:
`check_availability`, `list_room_reviews`, and a create request whose
declared owner matches the caller is never rejected by the role or
self-ownership gates. -/
theorem missing_role_header_defaults_to_regular_user
    (u room s e nid : Int) (ownerId targetId uid : Option Int)
    (db : List Booking) :
    Bookings.get_current_role none = "regular_user" ∧
    Reviews.get_current_role none = "regular_user" ∧
    Bookings.can_do_booking_action (Bookings.get_current_role none)
      "check_availability" ownerId targetId uid = true ∧
    Reviews.can_do_review_action (Reviews.get_current_role none)
      "list_room_reviews" ownerId uid = true ∧
    (Bookings.create_booking (Bookings.get_current_role none) (some u)
      ⟨u, room, s, e⟩ nid db).1 ≠ .forbidden ∧
    (Bookings.create_booking (Bookings.get_current_role none) (some u)
      ⟨u, room, s, e⟩ nid db).1 ≠ .selfForbidden := by
  refine ⟨rfl, rfl,
    by simp [Bookings.can_do_booking_action, Bookings.get_current_role],
    by simp [Reviews.can_do_review_action, Reviews.get_current_role],
    ?_, ?_⟩ <;>
  · rw [show Bookings.get_current_role none = "regular_user" from rfl]
    simp [Bookings.create_booking, Bookings.can_do_booking_action]
    split_ifs <;> simp

/-- C3: the conflict filter used at create time and in the availability
query agrees with the spec's half-open overlap rule `s1 < e2 AND s2 < e1`
(up to the room and status conjuncts), the overlap rule is symmetric, and
a booking ending exactly when the proposal starts never conflicts
(back-to-back bookings allowed). -/
theorem conflict_rule_matches_spec_overlap (b : Booking) (roomId s e : Int) :
    (Bookings.conflicts_with b roomId s e =
      (b.room_id == roomId && b.status == "CONFIRMED" &&
        overlapsSpec b.start_time b.end_time s e)) ∧
    (∀ s1 e1 s2 e2 : Int, overlapsSpec s1 e1 s2 e2 = overlapsSpec s2 e2 s1 e1) ∧
    (b.end_time = s → Bookings.conflicts_with b roomId s e = false) := by
  refine ⟨?_, ?_, ?_⟩
  · simp [Bookings.conflicts_with, overlapsSpec, Bool.and_assoc, gt_iff_lt]
  · intro s1 e1 s2 e2
    simp [overlapsSpec, Bool.and_comm]
  · intro h
    subst h
    simp [Bookings.conflicts_with]

/-- Witness for C3: an existing booking `[600, 660)` and a proposal
`[660, 720)` for the same room do not conflict. -/
theorem conflict_rule_matches_spec_overlap_witness :
    Bookings.conflicts_with ⟨1, 10, 1, 600, 660, "CONFIRMED"⟩ 1 660 720 = false :=
  (conflict_rule_matches_spec_overlap ⟨1, 10, 1, 600, 660, "CONFIRMED"⟩ 1 660 720).2.2
    rfl

/-- C7: a `CANCELLED` booking never satisfies the conflict filter, whatever
the proposed interval, and a `DELETED` review never appears in the
room-review listing, whose members are all `ACTIVE`. -/
theorem status_exclusion (b : Booking) (roomId s e rid : Int)
    (r : Review) (db : List Review) :
    (b.status = "CANCELLED" → Bookings.conflicts_with b roomId s e = false) ∧
    (r.status = "DELETED" → r ∉ Reviews.get_reviews_for_room rid db) ∧
    (∀ x, x ∈ Reviews.get_reviews_for_room rid db → x.status = "ACTIVE") := by
  refine ⟨?_, ?_, ?_⟩
  · intro h
    simp [Bookings.conflicts_with, h]
  · intro h hmem
    simp [Reviews.get_reviews_for_room, List.mem_filter, h] at hmem
  · intro x hx
    have h := (List.mem_filter.mp hx).2
    simp only [Bool.and_eq_true, beq_iff_eq] at h
    exact h.2

/-- C4: for `regular_user`/`moderator` booking creates and
`regular_user`/`facility_manager` review creates, a declared owner id that
differs from the authenticated caller id (or an absent caller id) yields
the distinct self-ownership rejection, leaving the table unchanged; when
the coarser role check fails the outcome is the plain `Forbidden`
rejection instead, so the self-ownership check runs only after it; and the
per-domain asymmetry holds: `facility_manager` is never stopped by either
gate on booking creates, while `moderator` is rejected at the role gate on
review creates. -/
theorem create_self_ownership (role : String) (uid : Option Int)
    (breq : Bookings.BookingCreateRequest) (rreq : Reviews.ReviewCreateRequest)
    (nid now : Int) (bdb : List Booking) (rdb : List Review) :
    ((role = "regular_user" ∨ role = "moderator") →
      uid ≠ some breq.user_id →
      Bookings.create_booking role uid breq nid bdb = (.selfForbidden, bdb)) ∧
    ((role = "regular_user" ∨ role = "facility_manager") →
      uid ≠ some rreq.user_id →
      Reviews.create_review role uid rreq nid now rdb = (.selfForbidden, rdb)) ∧
    (Bookings.can_do_booking_action role "create" none none uid = false →
      Bookings.create_booking role uid breq nid bdb = (.forbidden, bdb)) ∧
    (Reviews.create_review "moderator" uid rreq nid now rdb = (.forbidden, rdb)) ∧
    ((Bookings.create_booking "facility_manager" uid breq nid bdb).1
        ≠ .selfForbidden ∧
      (Bookings.create_booking "facility_manager" uid breq nid bdb).1
        ≠ .forbidden) := by
  refine ⟨?_, ?_, ?_, ?_, ?_⟩
  · rintro (rfl | rfl) huid <;>
    · cases uid with
      | none => simp [Bookings.create_booking, Bookings.can_do_booking_action]
      | some v =>
        have hv : v ≠ breq.user_id := fun h => huid (by rw [h])
        simp [Bookings.create_booking, Bookings.can_do_booking_action, hv]
  · rintro (rfl | rfl) huid <;>
    · cases uid with
      | none => simp [Reviews.create_review, Reviews.can_do_review_action]
      | some v =>
        have hv : v ≠ rreq.user_id := fun h => huid (by rw [h])
        simp [Reviews.create_review, Reviews.can_do_review_action, hv]
  · intro hfail
    simp [Bookings.create_booking, hfail]
  · simp [Reviews.create_review, Reviews.can_do_review_action]
  · constructor <;>
    · simp [Bookings.create_booking, Bookings.can_do_booking_action]
      split_ifs <;> simp

/-- Witness for C4: caller 10 declaring owner 20 is rejected with the
self-ownership outcome in both domains. -/
theorem create_self_ownership_witness :
    Bookings.create_booking "regular_user" (some 10) ⟨20, 1, 0, 60⟩ 1 [] =
      (.selfForbidden, []) ∧
    Reviews.create_review "regular_user" (some 10) ⟨20, 1, 5, none⟩ 1 0 [] =
      (.selfForbidden, []) :=
  ⟨(create_self_ownership "regular_user" (some 10) ⟨20, 1, 0, 60⟩ ⟨20, 1, 5, none⟩
      1 0 [] []).1 (Or.inl rfl) (by decide),
   (create_self_ownership "regular_user" (some 10) ⟨20, 1, 0, 60⟩ ⟨20, 1, 5, none⟩
      1 0 [] []).2.1 (Or.inl rfl) (by decide)⟩

/-- C9: after the RBAC cancel check passes (any such role, `admin`
included), a missing or mismatching `X-MFA-Code` header makes
`cancel_booking` return the MFA rejection with the table unchanged, and a
successful cancellation is possible only when the header carries exactly
the configured code. -/
theorem cancel_requires_mfa (role : String) (uid : Option Int)
    (mfa : Option String) (code : String) (bid : Int)
    (db : List Booking) (b : Booking) :
    (db.find? (fun x => x.id == bid) = some b →
      Bookings.can_do_booking_action role "cancel" (some b.user_id) none uid
        = true →
      (mfa = none ∨ ∃ s, mfa = some s ∧ s ≠ code) →
      Bookings.cancel_booking role uid mfa code bid db = (.mfaForbidden, db)) ∧
    (∀ db', Bookings.cancel_booking role uid mfa code bid db =
        (.cancelled, db') → mfa = some code) := by
  constructor
  · intro hfind hrbac hmfa
    have hv : Bookings.verify_mfa_for_delete mfa code = false := by
      rcases hmfa with rfl | ⟨s, rfl, hs⟩
      · rfl
      · simpa [Bookings.verify_mfa_for_delete] using hs
    simp [Bookings.cancel_booking, hfind, hrbac, hv]
  · intro db' hcancel
    unfold Bookings.cancel_booking at hcancel
    cases hfind : db.find? (fun x => x.id == bid) with
    | none => simp [hfind] at hcancel
    | some booking =>
      rw [hfind] at hcancel
      cases hr : Bookings.can_do_booking_action role "cancel"
          (some booking.user_id) none uid with
      | false => simp [hr] at hcancel
      | true =>
        cases hm : Bookings.verify_mfa_for_delete mfa code with
        | false => simp [hr, hm] at hcancel
        | true =>
          cases mfa with
          | none => simp [Bookings.verify_mfa_for_delete] at hm
          | some s =>
            have hs : s = code := by
              simpa [Bookings.verify_mfa_for_delete] using hm
            rw [hs]

/-- Witness for C9: an `admin` cancelling booking 1 without an MFA header
is rejected and the table is unchanged. -/
theorem cancel_requires_mfa_witness :
    Bookings.cancel_booking "admin" (some 1) none "123456" 1
      [⟨1, 10, 2, 0, 60, "CONFIRMED"⟩] =
      (.mfaForbidden, [⟨1, 10, 2, 0, 60, "CONFIRMED"⟩]) :=
  (cancel_requires_mfa "admin" (some 1) none "123456" 1
      [⟨1, 10, 2, 0, 60, "CONFIRMED"⟩] ⟨1, 10, 2, 0, 60, "CONFIRMED"⟩).1
    (by decide) (by decide) (Or.inl rfl)

/-- Witness for C7: a cancelled booking fully overlapping the proposal does
not conflict; a deleted review is absent from its room's listing. -/
theorem status_exclusion_witness :
    Bookings.conflicts_with ⟨1, 10, 1, 540, 600, "CANCELLED"⟩ 1 540 600 = false ∧
    (⟨2, 10, 1, 4, some "bad", "DELETED", false, 0⟩ : Review) ∉
      Reviews.get_reviews_for_room 1
        [⟨2, 10, 1, 4, some "bad", "DELETED", false, 0⟩] :=
  ⟨(status_exclusion ⟨1, 10, 1, 540, 600, "CANCELLED"⟩ 1 540 600 1
      ⟨2, 10, 1, 4, some "bad", "DELETED", false, 0⟩ []).1 rfl,
   (status_exclusion ⟨1, 10, 1, 540, 600, "CANCELLED"⟩ 1 540 600 1
      ⟨2, 10, 1, 4, some "bad", "DELETED", false, 0⟩
      [⟨2, 10, 1, 4, some "bad", "DELETED", false, 0⟩]).2.1 rfl⟩

/-- C1 fails as stated: `update_booking` runs no conflict check at all.
Starting from an empty table, two non-overlapping creates for room 1
(`[0,10)` and `[10,20)`) both succeed and keep the invariant, but then an
admin update moving booking 2's start to 5 is accepted, leaving two
`CONFIRMED` bookings for room 1 with overlapping intervals `[0,10)` and
`[5,20)`. -/
theorem update_can_break_no_overlap :
    noOverlap
      (Bookings.create_booking "admin" (some 1) ⟨1, 1, 10, 20⟩ 2
        (Bookings.create_booking "admin" (some 1) ⟨1, 1, 0, 10⟩ 1 []).2).2
      = true ∧
    (Bookings.update_booking "admin" (some 1) 2 ⟨none, some 5, none⟩
        (Bookings.create_booking "admin" (some 1) ⟨1, 1, 10, 20⟩ 2
          (Bookings.create_booking "admin" (some 1) ⟨1, 1, 0, 10⟩ 1 []).2).2).1
      = .updated ⟨2, 1, 1, 5, 20, "CONFIRMED"⟩ ∧
    noOverlap
      (Bookings.update_booking "admin" (some 1) 2 ⟨none, some 5, none⟩
        (Bookings.create_booking "admin" (some 1) ⟨1, 1, 10, 20⟩ 2
          (Bookings.create_booking "admin" (some 1) ⟨1, 1, 0, 10⟩ 1 []).2).2).2
      = false := by
  decide

/-- C1 (amended): the conflict check does run at every create boundary, so
a successful create preserves the no-double-booking invariant; no such
guarantee exists for updates, which perform no conflict re-check. -/
theorem create_preserves_no_overlap (role : String) (uid : Option Int)
    (req : Bookings.BookingCreateRequest) (nid : Int)
    (db db' : List Booking) (b : Booking)
    (hinv : noOverlap db = true)
    (hcreate : Bookings.create_booking role uid req nid db = (.created b, db')) :
    noOverlap db' = true := by
  unfold Bookings.create_booking at hcreate
  split_ifs at hcreate with h1 h2 h3 h4
  · simp at hcreate
  · simp at hcreate
  · simp at hcreate
  · simp at hcreate
  · have hnone : db.find? (fun x =>
        Bookings.conflicts_with x req.room_id req.start_time req.end_time)
        = none := by
      cases hfind : db.find? (fun x =>
          Bookings.conflicts_with x req.room_id req.start_time req.end_time) with
      | none => rfl
      | some y => exact absurd (by simp [hfind]) h4
    have hall := List.find?_eq_none.mp hnone
    simp only [Prod.mk.injEq] at hcreate
    obtain ⟨-, hdb⟩ := hcreate
    subst hdb
    rw [noOverlap_iff]
    rintro b1 h1m b2 h2m hid hroom hs1 hs2 ⟨hl1, hl2⟩
    rcases List.mem_append.mp h1m with h1d | h1n
    · rcases List.mem_append.mp h2m with h2d | h2n
      · exact (noOverlap_iff db).mp hinv b1 h1d b2 h2d hid hroom hs1 hs2 ⟨hl1, hl2⟩
      · -- b2 is the freshly inserted row: it would have been a conflict
        have hb2 : b2 = _ := List.mem_singleton.mp h2n
        subst hb2
        simp only at hroom hs2 hl1 hl2
        exact hall b1 h1d
          (by simp [Bookings.conflicts_with, hroom, hs1, hl1, hl2])
    · rcases List.mem_append.mp h2m with h2d | h2n
      · -- b1 is the freshly inserted row
        have hb1 : b1 = _ := List.mem_singleton.mp h1n
        subst hb1
        simp only at hroom hs1 hl1 hl2
        exact hall b2 h2d
          (by simp [Bookings.conflicts_with, ← hroom, hs2, hl1, hl2])
      · -- both are the inserted row, contradicting id inequality
        have hb1 : b1 = _ := List.mem_singleton.mp h1n
        have hb2 : b2 = _ := List.mem_singleton.mp h2n
        rw [hb1, hb2] at hid
        exact hid rfl

/-- Witness for the amended C1: a create into the empty table preserves the
invariant. -/
theorem create_preserves_no_overlap_witness :
    noOverlap [] = true ∧
    Bookings.create_booking "admin" (some 1) ⟨1, 2, 0, 10⟩ 5 [] =
      (.created ⟨5, 1, 2, 0, 10, "CONFIRMED"⟩, [⟨5, 1, 2, 0, 10, "CONFIRMED"⟩]) ∧
    noOverlap [⟨5, 1, 2, 0, 10, "CONFIRMED"⟩] = true :=
  ⟨by decide, by decide,
    create_preserves_no_overlap "admin" (some 1) ⟨1, 2, 0, 10⟩ 5 []
      [⟨5, 1, 2, 0, 10, "CONFIRMED"⟩] ⟨5, 1, 2, 0, 10, "CONFIRMED"⟩
      (by decide) (by decide)⟩
